import Mathlib

/-!
Shallow embedding of the vn-finance repository (frontend API client, table
formatting, stock search and year filtering from `src/frontend`, plus the
backend fetch orchestrator and reports assembler modelled from the spec,
since the backend source is not part of the sources provided).
-/

/-- Period type for financial reports, from `src/frontend/src/types/financial.ts`
(`type PeriodType = 'annual' | 'quarter'`). -/
inductive PeriodType
| annual
| quarter
deriving DecidableEq

/-- Stock entity, from `src/frontend/src/types/financial.ts`. -/
structure Stock where
  id : Int
  symbol : String
  name : Option String
  exchange : Option String
  created_at : Option String
  updated_at : Option String
deriving DecidableEq

/-- Search result row, from `src/frontend/src/types/financial.ts`. -/
structure StockSearchResult where
  symbol : String
  organName : String
  exchange : Option String
deriving DecidableEq

/-- Balance sheet row, from `src/frontend/src/types/financial.ts`; the numeric
line items are nullable, embedded as `Option Int` (integral monetary amounts). -/
structure BalanceSheet where
  id : Int
  stock_id : Int
  period_type : PeriodType
  year : Int
  quarter : Option Int
  period : String
  total_assets : Option Int
  current_assets : Option Int
  cash_and_equivalents : Option Int
  short_term_investments : Option Int
  accounts_receivable : Option Int
  inventory : Option Int
  non_current_assets : Option Int
  fixed_assets : Option Int
  long_term_investments : Option Int
  total_liabilities : Option Int
  current_liabilities : Option Int
  short_term_debt : Option Int
  accounts_payable : Option Int
  non_current_liabilities : Option Int
  long_term_debt : Option Int
  total_equity : Option Int
  share_capital : Option Int
  retained_earnings : Option Int
  minority_interest : Option Int
  created_at : Option String
deriving DecidableEq

/-- Income statement row, from `src/frontend/src/types/financial.ts`. -/
structure IncomeStatement where
  id : Int
  stock_id : Int
  period_type : PeriodType
  year : Int
  quarter : Option Int
  period : String
  revenue : Option Int
  cost_of_revenue : Option Int
  gross_profit : Option Int
  operating_expenses : Option Int
  selling_expenses : Option Int
  administrative_expenses : Option Int
  operating_income : Option Int
  interest_expense : Option Int
  interest_income : Option Int
  other_income : Option Int
  other_expenses : Option Int
  profit_before_tax : Option Int
  income_tax : Option Int
  net_income : Option Int
  net_income_attributable : Option Int
  eps : Option Int
  created_at : Option String
deriving DecidableEq

/-- Cash flow statement row, from `src/frontend/src/types/financial.ts`. -/
structure CashFlowStatement where
  id : Int
  stock_id : Int
  period_type : PeriodType
  year : Int
  quarter : Option Int
  period : String
  operating_cash_flow : Option Int
  net_income_cf : Option Int
  depreciation : Option Int
  changes_in_working_capital : Option Int
  investing_cash_flow : Option Int
  capital_expenditure : Option Int
  investments_purchases : Option Int
  investments_sales : Option Int
  financing_cash_flow : Option Int
  debt_issued : Option Int
  debt_repaid : Option Int
  dividends_paid : Option Int
  stock_issued : Option Int
  stock_repurchased : Option Int
  net_change_in_cash : Option Int
  beginning_cash : Option Int
  ending_cash : Option Int
  created_at : Option String
deriving DecidableEq

/-- Body of a fetch request, from `src/frontend/src/types/financial.ts`
(`FetchDataRequest`). -/
structure FetchDataRequest where
  period_type : PeriodType
  years : Int
deriving DecidableEq

/-- HTTP method of an axios call in `src/frontend/src/services/api.ts`. -/
inductive HttpMethod
| get
| post
| delete
deriving DecidableEq

/-- Value of a query parameter as placed into the axios `params` record in
`src/frontend/src/services/api.ts` (string, number or boolean). -/
inductive ParamValue
| str (s : String)
| num (n : Int)
| bool (b : Bool)
deriving DecidableEq

/-- Default axios timeout in milliseconds, from `src/frontend/src/services/api.ts`
(`const DEFAULT_TIMEOUT = 30000`). -/
def DEFAULT_TIMEOUT : Nat := 30000

/-- Timeout for data-fetching calls in milliseconds, from
`src/frontend/src/services/api.ts` (`const FETCH_TIMEOUT = 60000`). -/
def FETCH_TIMEOUT : Nat := 60000

/-- One HTTP request as issued by the axios client in
`src/frontend/src/services/api.ts`: method, path (relative to the `/api` base),
ordered query parameters, optional JSON body, and effective timeout (the
per-call override when given, otherwise the instance default). -/
structure ApiRequest where
  method : HttpMethod
  path : String
  params : List (String × ParamValue)
  body : Option FetchDataRequest
  timeout : Nat
deriving DecidableEq

/-- Wire string of a period type as sent in query parameters. -/
def periodTypeString : PeriodType → String
| PeriodType.annual => "annual"
| PeriodType.quarter => "quarter"

/-- Embedding of the `if (year) params.year = year` guard used by the read
operations in `src/frontend/src/services/api.ts`: a JavaScript truthiness
check, so the parameter is added only when a year is present and nonzero. -/
def yearParam : Option Int → List (String × ParamValue)
| some y => if y ≠ 0 then [("year", ParamValue.num y)] else []
| none => []

/-- Embedding of the `if (periodType) params.period_type = periodType` guard
in `src/frontend/src/services/api.ts` (a `PeriodType` string is never empty,
hence always truthy when present). -/
def periodTypeParam : Option PeriodType → List (String × ParamValue)
| some pt => [("period_type", ParamValue.str (periodTypeString pt))]
| none => []

/-- Request issued by `stockApi.listStocks`. -/
def listStocksRequest : ApiRequest :=
  ⟨HttpMethod.get, "/stocks", [], none, DEFAULT_TIMEOUT⟩

/-- Request issued by `stockApi.searchStocks` for a query string. -/
def searchStocksRequest (query : String) : ApiRequest :=
  ⟨HttpMethod.get, "/stocks/search", [("q", ParamValue.str query)], none, DEFAULT_TIMEOUT⟩

/-- Request issued by `stockApi.getStock`. -/
def getStockRequest (symbol : String) : ApiRequest :=
  ⟨HttpMethod.get, "/stocks/" ++ symbol, [], none, DEFAULT_TIMEOUT⟩

/-- Body sent by `stockApi.fetchStockData`: the caller's request object, or —
via JavaScript `request || { period_type: 'annual', years: 6 }` — the default
body when none is given (an object argument is always truthy). -/
def fetchStockDataBody : Option FetchDataRequest → FetchDataRequest
| some r => r
| none => ⟨PeriodType.annual, 6⟩

/-- Request issued by `stockApi.fetchStockData`: POST to `/stocks/{symbol}/fetch`
with a `lang` query parameter and the `FETCH_TIMEOUT` override. -/
def fetchStockDataRequest (symbol : String) (request : Option FetchDataRequest)
    (lang : String) : ApiRequest :=
  ⟨HttpMethod.post, "/stocks/" ++ symbol ++ "/fetch",
    [("lang", ParamValue.str lang)], some (fetchStockDataBody request), FETCH_TIMEOUT⟩

/-- Request issued by `stockApi.getBalanceSheets`. -/
def getBalanceSheetsRequest (symbol : String) (year : Option Int)
    (periodType : Option PeriodType) : ApiRequest :=
  ⟨HttpMethod.get, "/stocks/" ++ symbol ++ "/balance-sheet",
    yearParam year ++ periodTypeParam periodType, none, DEFAULT_TIMEOUT⟩

/-- Request issued by `stockApi.getIncomeStatements`. -/
def getIncomeStatementsRequest (symbol : String) (year : Option Int)
    (periodType : Option PeriodType) : ApiRequest :=
  ⟨HttpMethod.get, "/stocks/" ++ symbol ++ "/income-statement",
    yearParam year ++ periodTypeParam periodType, none, DEFAULT_TIMEOUT⟩

/-- Request issued by `stockApi.getCashFlowStatements`. -/
def getCashFlowStatementsRequest (symbol : String) (year : Option Int)
    (periodType : Option PeriodType) : ApiRequest :=
  ⟨HttpMethod.get, "/stocks/" ++ symbol ++ "/cash-flow",
    yearParam year ++ periodTypeParam periodType, none, DEFAULT_TIMEOUT⟩

/-- Request issued by `stockApi.getAllReports`: the params record is built with
`period_type`, `lang` and `auto_fetch: true`, then `year` is appended only when
truthy; the call carries the `FETCH_TIMEOUT` override. -/
def getAllReportsRequest (symbol : String) (year : Option Int)
    (periodType : PeriodType) (lang : String) : ApiRequest :=
  ⟨HttpMethod.get, "/stocks/" ++ symbol ++ "/reports",
    [("period_type", ParamValue.str (periodTypeString periodType)),
     ("lang", ParamValue.str lang),
     ("auto_fetch", ParamValue.bool true)] ++ yearParam year,
    none, FETCH_TIMEOUT⟩

/-- Request issued by `stockApi.getFetchStatus`. -/
def getFetchStatusRequest (symbol : String) : ApiRequest :=
  ⟨HttpMethod.get, "/stocks/" ++ symbol ++ "/status", [], none, DEFAULT_TIMEOUT⟩

/-- Request issued by `stockApi.deleteStock`. -/
def deleteStockRequest (symbol : String) : ApiRequest :=
  ⟨HttpMethod.delete, "/stocks/" ++ symbol, [], none, DEFAULT_TIMEOUT⟩

/-- Decimal digit character for a digit value below ten. -/
def digitChar (d : Nat) : Char :=
  if d = 0 then '0' else if d = 1 then '1' else if d = 2 then '2'
  else if d = 3 then '3' else if d = 4 then '4' else if d = 5 then '5'
  else if d = 6 then '6' else if d = 7 then '7' else if d = 8 then '8' else '9'

/-- Decimal digits of a natural number, least significant first (empty for 0). -/
def natDigitsRev (n : Nat) : List Char :=
  if h : n = 0 then []
  else digitChar (n % 10) :: natDigitsRev (n / 10)
termination_by n
decreasing_by exact Nat.div_lt_self (Nat.pos_of_ne_zero h) (by omega)

/-- Insert a thousands separator after every third digit, on a
least-significant-first digit list; `k` counts digits emitted since the last
separator. -/
def groupRev (sep : Char) : List Char → Nat → List Char
| [], _ => []
| c :: cs, k =>
  if k = 3 then sep :: c :: groupRev sep cs 1
  else c :: groupRev sep cs (k + 1)

/-- Decimal rendering of a natural number with thousands separators
(most significant digit first). -/
def natGrouped (n : Nat) (sep : Char) : String :=
  if n = 0 then "0" else String.mk ((groupRev sep (natDigitsRev n) 0).reverse)

/-- Thousands separator selected by BCP 47 locale code: `vi-VN` groups with a
dot, `en-US` with a comma. -/
def localeSep (localeCode : String) : Char :=
  if localeCode = "vi-VN" then '.' else ','

/-- Model of JavaScript `Number.prototype.toLocaleString` restricted to the
integral values the line items hold: the decimal numeral with locale-dependent
thousands separators (`vi-VN`: `1.234.567`, `en-US`: `1,234,567`), with a
leading minus sign for negative values. -/
def intToLocaleString (v : Int) (localeCode : String) : String :=
  if v < 0 then "-" ++ natGrouped v.natAbs (localeSep localeCode)
  else natGrouped v.natAbs (localeSep localeCode)

/-- Embedding of `formatNumber` from the financial table component
(`src/unnamed/part_002`): a null (or undefined) value renders as the
placeholder `-`; any actual number renders via `toLocaleString` with locale
code `vi-VN` when the UI locale is `vi`, else `en-US`. -/
def formatNumber (value : Option Int) (locale : String) : String :=
  match value with
  | none => "-"
  | some v => intToLocaleString v (if locale = "vi" then "vi-VN" else "en-US")

/-- Embedding of `getValueClass` from the financial table component
(`src/unnamed/part_002`). -/
def getValueClass (value : Option Int) : String :=
  match value with
  | none => ""
  | some v => if 0 ≤ v then "number-positive" else "number-negative"

/-- One keystroke into the controlled search input of `StockSearch`
(`src/unnamed/part_001`): the displayed value gains the typed character and
`onChange` stores `e.target.value.toUpperCase()` (embedded as
`String.toUpper`; ticker symbols are ASCII). -/
def typeChar (query : String) (c : Char) : String :=
  (query.push c).toUpper

/-- Query held in the `StockSearch` state after typing the characters of `s`
one by one into an initially empty input. -/
def typeString (s : List Char) : String :=
  s.foldl typeChar ""

/-- Effect of the debounced-search `useEffect` in `StockSearch`
(`src/unnamed/part_001`): what happens once the debounced query settles. -/
inductive SearchEffect
| clear
| call (q : String)
deriving DecidableEq

/-- Embedding of the debounced-search `useEffect` body in `StockSearch`
(`src/unnamed/part_001`): a query shorter than one character clears the result
list and returns without calling `searchStocks`; otherwise `searchStocks` is
invoked with the debounced query. -/
def searchOnDebounce (q : String) : SearchEffect :=
  if q.length < 1 then SearchEffect.clear else SearchEffect.call q

/-- Result list written by the short-query branch of the debounced-search
effect (`setResults([])`). -/
def resultsAfterClear : List StockSearchResult := []

/-- Request sent to the search operation for the query currently stored in the
`StockSearch` state (the debounced value equals the stored query once the
timer settles). -/
def searchRequestForTyped (s : List Char) : ApiRequest :=
  searchStocksRequest (typeString s)

/-- Descending comparison on years: the relation under which the year list is
sorted by `.sort((a, b) => b - a)` in `updateAvailableYears`
(`src/frontend/src/App.tsx`). -/
def yearsDesc (a b : Int) : Prop := b ≤ a

instance : DecidableRel yearsDesc := fun a b => inferInstanceAs (Decidable (b ≤ a))

instance : IsTotal Int yearsDesc := ⟨fun a b => le_total b a⟩

instance : IsTrans Int yearsDesc := ⟨fun _ _ _ hab hbc => le_trans hbc hab⟩

/-- Embedding of `updateAvailableYears` from `src/frontend/src/App.tsx`: the
years of all rows of the three report arrays are collected into a `Set` (which
deduplicates), turned into an array, and sorted numerically descending. -/
def updateAvailableYears (bs : List BalanceSheet) (incs : List IncomeStatement)
    (cfs : List CashFlowStatement) : List Int :=
  List.insertionSort yearsDesc
    ((bs.map BalanceSheet.year ++ incs.map IncomeStatement.year
      ++ cfs.map CashFlowStatement.year).dedup)

/-- Embedding of `filteredBalanceSheets` from `src/frontend/src/App.tsx`: the
unfiltered array when no years are selected, else the rows whose year is in
`selectedYears`. -/
def filteredBalanceSheets (selectedYears : List Int)
    (balanceSheets : List BalanceSheet) : List BalanceSheet :=
  if selectedYears.length = 0 then balanceSheets
  else balanceSheets.filter (fun b => decide (b.year ∈ selectedYears))

/-- Embedding of `filteredIncomeStatements` from `src/frontend/src/App.tsx`. -/
def filteredIncomeStatements (selectedYears : List Int)
    (incomeStatements : List IncomeStatement) : List IncomeStatement :=
  if selectedYears.length = 0 then incomeStatements
  else incomeStatements.filter (fun i => decide (i.year ∈ selectedYears))

/-- Embedding of `filteredCashFlowStatements` from `src/frontend/src/App.tsx`. -/
def filteredCashFlowStatements (selectedYears : List Int)
    (cashFlowStatements : List CashFlowStatement) : List CashFlowStatement :=
  if selectedYears.length = 0 then cashFlowStatements
  else cashFlowStatements.filter (fun c => decide (c.year ∈ selectedYears))

/-- Modelled from the spec: rank of a quarter for sorting, with the null
quarter of annual rows as a single bucket. -/
def qRank : Option Int → Int
| none => 0
| some q => q

/-- Modelled from the spec: the row order of a reports read, year descending,
then quarter descending (null/annual quarter as one bucket), expressed through
year and quarter projections so it applies to all three report row types. -/
def periodDesc (year : α → Int) (quarter : α → Option Int) (a b : α) : Prop :=
  year b < year a ∨ (year b = year a ∧ qRank (quarter b) ≤ qRank (quarter a))

instance (year : α → Int) (quarter : α → Option Int) :
    DecidableRel (periodDesc year quarter) := fun _ _ =>
  inferInstanceAs (Decidable (_ ∨ _))

/-- Modelled from the spec: whether a row passes the reports read's filters,
matching the requested period type and the year filter when one is given
(the backend Reports Assembler is not among the provided sources). -/
def matchesRead (pt : PeriodType) (yearFilter : Option Int)
    (rowPt : PeriodType) (rowYear : Int) : Bool :=
  decide (rowPt = pt) &&
    (match yearFilter with
     | some y => decide (rowYear = y)
     | none => true)

/-- Modelled from the spec: the Reports Assembler's read of one category —
keep the rows matching the period type and optional year filter, ordered by
year descending then quarter descending. -/
def readPeriodRows (year : α → Int) (quarter : α → Option Int)
    (pt : α → PeriodType) (ptReq : PeriodType) (yearFilter : Option Int)
    (rows : List α) : List α :=
  List.insertionSort (periodDesc year quarter)
    (rows.filter (fun r => matchesRead ptReq yearFilter (pt r) (year r)))

/-- Combined result of the Reports Assembler, shaped like `ReportsResponse`
in `src/frontend/src/services/api.ts`. -/
structure ReportsResult where
  balance_sheets : List BalanceSheet
  income_statements : List IncomeStatement
  cash_flow_statements : List CashFlowStatement
deriving DecidableEq

/-- Modelled from the spec: the Reports Assembler's read step, returning the
three persisted report collections filtered and ordered as in section 4.2. -/
def assembleReports (ptReq : PeriodType) (yearFilter : Option Int)
    (bs : List BalanceSheet) (incs : List IncomeStatement)
    (cfs : List CashFlowStatement) : ReportsResult :=
  ⟨readPeriodRows BalanceSheet.year BalanceSheet.quarter BalanceSheet.period_type
      ptReq yearFilter bs,
    readPeriodRows IncomeStatement.year IncomeStatement.quarter
      IncomeStatement.period_type ptReq yearFilter incs,
    readPeriodRows CashFlowStatement.year CashFlowStatement.quarter
      CashFlowStatement.period_type ptReq yearFilter cfs⟩

/-- Modelled from the spec: the storage key of a financial period record,
(period_type, year, quarter-or-null); the stock is fixed by the store the key
lives in. -/
structure PKey where
  period_type : PeriodType
  year : Int
  quarter : Option Int
deriving DecidableEq

/-- Modelled from the spec: one category's persisted rows for a stock, an
association list from period key to row content (invariant: at most one row
per key). -/
abbrev CatStore (α : Type) : Type := List (PKey × α)

/-- Keys currently present in a category store. -/
def keysOf (s : CatStore α) : List PKey :=
  s.map Prod.fst

/-- Whether a category store already holds a row for a key. -/
def hasKey (s : CatStore α) (k : PKey) : Bool :=
  s.map Prod.fst |>.any (fun k2 => decide (k2 = k))

/-- Modelled from the spec: upsert of one period row — overwrite if the key
already exists, insert otherwise. -/
def upsertRow (s : CatStore α) (k : PKey) (v : α) : CatStore α :=
  if hasKey s k then
    s.map (fun p => if p.1 = k then (k, v) else p)
  else s ++ [(k, v)]

/-- Upsert every row a provider response returned, in order. -/
def upsertAll (s : CatStore α) (rows : List (PKey × α)) : CatStore α :=
  rows.foldl (fun acc p => upsertRow acc p.1 p.2) s

/-- Modelled from the spec: the persisted state the Fetch Orchestrator acts
on — the known stock symbols and the three category stores of one stock. -/
structure DB (α : Type) where
  stocks : List String
  bs : CatStore α
  incs : CatStore α
  cfs : CatStore α

/-- Modelled from the spec: one unchanged external-provider response, the rows
the provider returns per report category for the requested window. -/
structure ProviderData (α : Type) where
  bsRows : List (PKey × α)
  incRows : List (PKey × α)
  cfRows : List (PKey × α)

/-- Status returned by `ensureData` (spec section 4.1). -/
inductive FetchStatus
| cached
| fetched
deriving DecidableEq

/-- Modelled from the spec: the periods of the requested type that already
exist in local storage (present in every category store). -/
def existingPeriods (db : DB α) (pt : PeriodType) : List PKey :=
  (keysOf db.bs).filter
    (fun k => decide (k.period_type = pt) && decide (k ∈ keysOf db.incs)
      && decide (k ∈ keysOf db.cfs))

/-- Modelled from the spec: resolve or create the Stock entity for the symbol
(the stores are untouched by stock creation). -/
def stockResolved (db : DB α) (symbol : String) : DB α :=
  if symbol ∈ db.stocks then db
  else ⟨db.stocks ++ [symbol], db.bs, db.incs, db.cfs⟩

/-- Modelled from the spec: the missing set = expected periods − existing
periods of the requested type. -/
def missingSet (db : DB α) (pt : PeriodType) (expected : List PKey) : List PKey :=
  expected.filter (fun k => decide (k ∉ existingPeriods db pt))

/-- Modelled from the spec (section 4.1, the backend Fetch Orchestrator is not
among the provided sources): `ensureData` resolves or creates the Stock row,
computes the missing set = expected periods − existing periods, returns
`cached` without contacting the provider when the missing set is empty, and
otherwise upserts every row the provider returned for each category and
returns `fetched`. The expected-period window and the provider response are
parameters. -/
def ensureData (db : DB α) (symbol : String) (pt : PeriodType)
    (expected : List PKey) (provider : ProviderData α) : DB α × FetchStatus :=
  if (missingSet (stockResolved db symbol) pt expected).isEmpty
  then (stockResolved db symbol, FetchStatus.cached)
  else
    (⟨(stockResolved db symbol).stocks,
       upsertAll (stockResolved db symbol).bs provider.bsRows,
       upsertAll (stockResolved db symbol).incs provider.incRows,
       upsertAll (stockResolved db symbol).cfs provider.cfRows⟩, FetchStatus.fetched)

/-- Row counts persisted per category, as reported by the fetch endpoint. -/
def dbCounts (db : DB α) : Nat × Nat × Nat :=
  (db.bs.length, db.incs.length, db.cfs.length)

/-- Uniqueness invariant of the data model: no two persisted rows of any
category share a period key. -/
def dbNodupKeys (db : DB α) : Prop :=
  (keysOf db.bs).Nodup ∧ (keysOf db.incs).Nodup ∧ (keysOf db.cfs).Nodup

instance (db : DB α) : Decidable (dbNodupKeys db) :=
  inferInstanceAs (Decidable (_ ∧ _ ∧ _))

/-- Sample balance sheet row (year 2020, all line items absent) used for
concrete witness evaluations. -/
def bsSample : BalanceSheet :=
  ⟨1, 1, PeriodType.annual, 2020, none, "2020",
    none, none, none, none, none, none, none, none, none,
    none, none, none, none, none, none,
    none, none, none, none, none⟩

/-- Sample period key (annual 2020) for concrete witness evaluations. -/
def kSample0 : PKey := ⟨PeriodType.annual, 2020, none⟩

/-- Sample period key (annual 2021) for concrete witness evaluations. -/
def kSample1 : PKey := ⟨PeriodType.annual, 2021, none⟩

/-- Sample empty persisted state for concrete witness evaluations. -/
def dbSample : DB Int := ⟨[], [], [], []⟩

/-- Sample provider response for concrete witness evaluations; the income and
cash-flow categories return fewer periods than the balance-sheet category, so
a second `ensureData` call sees a non-empty missing set and re-upserts. -/
def provSample : ProviderData Int :=
  ⟨[(kSample0, 7), (kSample1, 8)], [(kSample0, 9)], [(kSample1, 5)]⟩

/-- Claim C2: every API-client operation that can trigger an external-provider
fetch (`fetchStockData`, `getAllReports`) is issued with a 60-second timeout,
and every other operation of `stockApi` (the pure reads and the delete) is
issued with the default 30-second timeout. -/
theorem api_timeouts (symbol query lang : String) (request : Option FetchDataRequest)
    (year : Option Int) (periodType : Option PeriodType) (ptReq : PeriodType) :
    (fetchStockDataRequest symbol request lang).timeout = 60000
    ∧ (getAllReportsRequest symbol year ptReq lang).timeout = 60000
    ∧ listStocksRequest.timeout = 30000
    ∧ (searchStocksRequest query).timeout = 30000
    ∧ (getStockRequest symbol).timeout = 30000
    ∧ (getBalanceSheetsRequest symbol year periodType).timeout = 30000
    ∧ (getIncomeStatementsRequest symbol year periodType).timeout = 30000
    ∧ (getCashFlowStatementsRequest symbol year periodType).timeout = 30000
    ∧ (getFetchStatusRequest symbol).timeout = 30000
    ∧ (deleteStockRequest symbol).timeout = 30000 :=
  ⟨rfl, rfl, rfl, rfl, rfl, rfl, rfl, rfl, rfl, rfl⟩

/-- Claim C4: `fetchStockData` without an explicit request body sends
`period_type: 'annual'` and `years: 6`, within the 5-to-6-trailing-years
first-load default policy. -/
theorem fetchStockData_default_body (symbol lang : String) :
    fetchStockDataBody none = ⟨PeriodType.annual, 6⟩
    ∧ (fetchStockDataRequest symbol none lang).body = some ⟨PeriodType.annual, 6⟩
    ∧ (fetchStockDataBody none).period_type = PeriodType.annual
    ∧ 5 ≤ (fetchStockDataBody none).years ∧ (fetchStockDataBody none).years ≤ 6 :=
  ⟨rfl, rfl, rfl, by decide, by decide⟩

/-- Helper for claim C5: every parameter a `yearParam` guard can emit has key
`year`, hence is not an `auto_fetch` parameter. -/
theorem yearParam_keys (year : Option Int) :
    (yearParam year).all
      (fun kv => !(kv.1 == "auto_fetch") && (kv.1 == "year" || kv.1 == "period_type"))
      = true := by
  rcases year with _ | y
  · rfl
  · simp only [yearParam]
    split <;> rfl

/-- Helper for claim C5: every parameter a `periodTypeParam` guard can emit has
key `period_type`, hence is not an `auto_fetch` parameter. -/
theorem periodTypeParam_keys (ptOpt : Option PeriodType) :
    (periodTypeParam ptOpt).all
      (fun kv => !(kv.1 == "auto_fetch") && (kv.1 == "year" || kv.1 == "period_type"))
      = true := by
  rcases ptOpt with _ | pt <;> rfl

/-- Claim C5: `getAllReports` always sends `auto_fetch = true`, while the three
single-category reads never send an `auto_fetch` parameter and their query
holds at most `year` and `period_type` keys. -/
theorem reports_auto_fetch_params (symbol lang : String) (year : Option Int)
    (ptReq : PeriodType) (ptOpt : Option PeriodType) :
    ("auto_fetch", ParamValue.bool true) ∈ (getAllReportsRequest symbol year ptReq lang).params
    ∧ ((getBalanceSheetsRequest symbol year ptOpt).params.all
        (fun kv => !(kv.1 == "auto_fetch") && (kv.1 == "year" || kv.1 == "period_type"))) = true
    ∧ ((getIncomeStatementsRequest symbol year ptOpt).params.all
        (fun kv => !(kv.1 == "auto_fetch") && (kv.1 == "year" || kv.1 == "period_type"))) = true
    ∧ ((getCashFlowStatementsRequest symbol year ptOpt).params.all
        (fun kv => !(kv.1 == "auto_fetch") && (kv.1 == "year" || kv.1 == "period_type"))) = true := by
  refine ⟨by simp [getAllReportsRequest], ?_, ?_, ?_⟩ <;>
    simp [getBalanceSheetsRequest, getIncomeStatementsRequest,
      getCashFlowStatementsRequest, List.all_append, yearParam_keys, periodTypeParam_keys]

/-- Claim C8: in every read operation taking an optional year filter, a year
argument equal to 0 is omitted from the request exactly as if no year were
given (the guard is a JavaScript truthiness check). -/
theorem year_zero_like_no_filter (symbol lang : String) (ptOpt : Option PeriodType)
    (ptReq : PeriodType) :
    getBalanceSheetsRequest symbol (some 0) ptOpt = getBalanceSheetsRequest symbol none ptOpt
    ∧ getIncomeStatementsRequest symbol (some 0) ptOpt
      = getIncomeStatementsRequest symbol none ptOpt
    ∧ getCashFlowStatementsRequest symbol (some 0) ptOpt
      = getCashFlowStatementsRequest symbol none ptOpt
    ∧ getAllReportsRequest symbol (some 0) ptReq lang
      = getAllReportsRequest symbol none ptReq lang := by
  refine ⟨?_, ?_, ?_, ?_⟩ <;>
    simp [getBalanceSheetsRequest, getIncomeStatementsRequest,
      getCashFlowStatementsRequest, getAllReportsRequest, yearParam]

/-- Claim C10: the stock search component never calls the search operation with
a query shorter than one character; an empty debounced query clears the result
list and returns without calling `searchStocks`. -/
theorem search_min_query_length (q : String) :
    (q.length < 1 → searchOnDebounce q = SearchEffect.clear ∧ resultsAfterClear = [])
    ∧ ∀ q2 : String, searchOnDebounce q = SearchEffect.call q2 → 1 ≤ q2.length := by
  constructor
  · intro h
    exact ⟨by simp [searchOnDebounce, h], rfl⟩
  · intro q2 h2
    by_cases h : q.length < 1
    · simp [searchOnDebounce, h] at h2
    · simp only [searchOnDebounce, if_neg h, SearchEffect.call.injEq] at h2
      subst h2
      omega

/-- Witness for claim C10 at concrete queries. -/
theorem search_min_query_length_witness :
    searchOnDebounce "" = SearchEffect.clear ∧ 1 ≤ ("VNM" : String).length :=
  ⟨((search_min_query_length "").1 (by decide)).1,
    (search_min_query_length "VNM").2 "VNM" (by decide)⟩

/-- Claim C9: the UI's year filtering is the identity when no years are
selected, and otherwise keeps exactly the rows whose year is among the
selected years, in their original relative order (a sublist of the
unfiltered array). -/
theorem app_year_filter (sel : List Int) (bs : List BalanceSheet)
    (incs : List IncomeStatement) (cfs : List CashFlowStatement) :
    (filteredBalanceSheets [] bs = bs
      ∧ filteredIncomeStatements [] incs = incs
      ∧ filteredCashFlowStatements [] cfs = cfs)
    ∧ (sel ≠ [] →
        (List.Sublist (filteredBalanceSheets sel bs) bs
          ∧ ∀ r, r ∈ filteredBalanceSheets sel bs ↔ r ∈ bs ∧ r.year ∈ sel)
        ∧ (List.Sublist (filteredIncomeStatements sel incs) incs
          ∧ ∀ r, r ∈ filteredIncomeStatements sel incs ↔ r ∈ incs ∧ r.year ∈ sel)
        ∧ (List.Sublist (filteredCashFlowStatements sel cfs) cfs
          ∧ ∀ r, r ∈ filteredCashFlowStatements sel cfs ↔ r ∈ cfs ∧ r.year ∈ sel)) := by
  constructor
  · exact ⟨rfl, rfl, rfl⟩
  · intro hne
    have hlen : ¬ sel.length = 0 := by simpa [List.length_eq_zero] using hne
    refine ⟨⟨?_, ?_⟩, ⟨?_, ?_⟩, ⟨?_, ?_⟩⟩ <;>
      simp only [filteredBalanceSheets, filteredIncomeStatements,
        filteredCashFlowStatements, if_neg hlen] <;>
      first
        | exact List.filter_sublist _
        | simp [List.mem_filter]

/-- Witness for claim C9 at a concrete selection and row. -/
theorem app_year_filter_witness :
    List.Sublist (filteredBalanceSheets [2020] [bsSample]) [bsSample] :=
  (((app_year_filter [2020] [bsSample] [] []).2 (by decide)).1).1

/-- Helper for claim C6: a character value produced by `Char.ofNat` at a valid
code point reads back that code point. -/
theorem char_ofNat_toNat (n : Nat) (h : n.isValidChar) : (Char.ofNat n).toNat = n := by
  simp only [Char.ofNat, dif_pos h, Char.ofNatAux, Char.toNat]
  rfl

/-- Helper for claim C6: upper-casing a character is idempotent. -/
theorem char_toUpper_idem (c : Char) : Char.toUpper (Char.toUpper c) = Char.toUpper c := by
  unfold Char.toUpper
  by_cases h : c.toNat ≥ 97 ∧ c.toNat ≤ 122
  · simp only [if_pos h]
    have hv : (c.toNat - 32).isValidChar := Or.inl (by omega)
    rw [char_ofNat_toNat _ hv, if_neg (by omega)]
  · simp only [if_neg h]

/-- Helper for claim C6: the character data of an upper-cased string. -/
theorem data_toUpper (s : String) : (String.toUpper s).data = s.data.map Char.toUpper := by
  show (String.map Char.toUpper s).data = _
  rw [String.map_eq]

/-- Helper for claim C6: two strings with the same character data are equal. -/
theorem string_data_ext {s t : String} (h : s.data = t.data) : s = t := by
  cases s
  cases t
  exact congrArg String.mk h

/-- Helper for claim C6: typing characters one by one into the controlled
search input keeps the stored query equal to the upper-cased input, starting
from any already-upper-cased query. -/
theorem typeChar_foldl (s : List Char) : ∀ q : String,
    q.data.map Char.toUpper = q.data →
    (s.foldl typeChar q).data = q.data ++ s.map Char.toUpper := by
  induction s with
  | nil =>
    intro q _
    simp
  | cons c cs ih =>
    intro q hq
    have hqc : (typeChar q c).data = q.data ++ [Char.toUpper c] := by
      unfold typeChar
      rw [data_toUpper, String.data_push, List.map_append, hq]
      simp
    have hq2 : (typeChar q c).data.map Char.toUpper = (typeChar q c).data := by
      rw [hqc, List.map_append, hq]
      simp [char_toUpper_idem]
    show (cs.foldl typeChar (typeChar q c)).data = _
    rw [ih (typeChar q c) hq2, hqc]
    simp

/-- Claim C6: for every sequence of characters the user types into the stock
search box, the stored query — and hence the query subsequently sent to the
search operation — equals the typed string normalized to upper case. -/
theorem search_query_uppercased (s : List Char) :
    typeString s = String.toUpper (String.mk s)
    ∧ (searchRequestForTyped s).params
      = [("q", ParamValue.str (String.toUpper (String.mk s)))] := by
  have h1 : typeString s = String.toUpper (String.mk s) := by
    apply string_data_ext
    unfold typeString
    rw [typeChar_foldl s "" rfl, data_toUpper]
    simp
  exact ⟨h1, by simp [searchRequestForTyped, searchStocksRequest, h1]⟩

/-- Helper for claim C3: a decimal digit character is never the dash
placeholder. -/
theorem digitChar_ne_dash (d : Nat) : digitChar d ≠ '-' := by
  unfold digitChar
  split_ifs <;> decide

/-- Helper for claim C3: no character of a digit expansion is the dash
placeholder. -/
theorem mem_natDigitsRev (n : Nat) : ∀ c ∈ natDigitsRev n, c ≠ '-' := by
  induction n using Nat.strong_induction_on with
  | _ n ih =>
    intro c hc
    rw [natDigitsRev] at hc
    by_cases hn : n = 0
    · simp [hn] at hc
    · simp only [dif_neg hn, List.mem_cons] at hc
      rcases hc with hc | hc
      · exact hc ▸ digitChar_ne_dash (n % 10)
      · exact ih (n / 10) (Nat.div_lt_self (Nat.pos_of_ne_zero hn) (by omega)) c hc

/-- Helper for claim C3: grouping only interleaves the separator between the
original characters. -/
theorem mem_groupRev (sep : Char) (l : List Char) :
    ∀ k, ∀ c ∈ groupRev sep l k, c ∈ l ∨ c = sep := by
  induction l with
  | nil =>
    intro k c hc
    simp [groupRev] at hc
  | cons c0 cs ih =>
    intro k c hc
    by_cases hk : k = 3 <;>
      simp only [groupRev, if_pos, if_neg, hk, reduceIte, List.mem_cons] at hc
    · rcases hc with hc | hc | hc
      · exact Or.inr hc
      · exact Or.inl (by simp [hc])
      · rcases ih 1 c hc with h2 | h2
        · exact Or.inl (List.mem_cons_of_mem _ h2)
        · exact Or.inr h2
    · rcases hc with hc | hc
      · exact Or.inl (by simp [hc])
      · rcases ih (k + 1) c hc with h2 | h2
        · exact Or.inl (List.mem_cons_of_mem _ h2)
        · exact Or.inr h2

/-- Helper for claim C3: a positive number has a non-empty digit expansion. -/
theorem natDigitsRev_ne_nil (n : Nat) (h : n ≠ 0) : natDigitsRev n ≠ [] := by
  rw [natDigitsRev]
  simp [h]

/-- Helper for claim C3: grouping a non-empty digit list is non-empty. -/
theorem groupRev_ne_nil (sep : Char) (l : List Char) (k : Nat) (h : l ≠ []) :
    groupRev sep l k ≠ [] := by
  cases l with
  | nil => exact absurd rfl h
  | cons c0 cs =>
    simp only [groupRev]
    split <;> simp

/-- Helper for claim C3: a grouped numeral is never the empty string. -/
theorem natGrouped_ne_empty (n : Nat) (sep : Char) : natGrouped n sep ≠ "" := by
  unfold natGrouped
  by_cases h : n = 0
  · simp [h]
  · simp only [if_neg h]
    intro heq
    have hl : (groupRev sep (natDigitsRev n) 0).reverse = [] := congrArg String.data heq
    rw [List.reverse_eq_nil_iff] at hl
    exact groupRev_ne_nil sep _ 0 (natDigitsRev_ne_nil n h) hl

/-- Helper for claim C3: a grouped numeral is never the dash placeholder. -/
theorem natGrouped_ne_dash (n : Nat) (sep : Char) (hsep : sep ≠ '-') :
    natGrouped n sep ≠ "-" := by
  unfold natGrouped
  by_cases h : n = 0
  · simp [h]
  · simp only [if_neg h]
    intro heq
    have hl : (groupRev sep (natDigitsRev n) 0).reverse = ['-'] := congrArg String.data heq
    have hmem : '-' ∈ (groupRev sep (natDigitsRev n) 0).reverse := by
      rw [hl]
      simp
    rw [List.mem_reverse] at hmem
    rcases mem_groupRev sep (natDigitsRev n) 0 '-' hmem with h2 | h2
    · exact mem_natDigitsRev n '-' h2 rfl
    · exact hsep h2.symm

/-- Helper for claim C3: neither locale's thousands separator is the dash
placeholder. -/
theorem localeSep_ne_dash (lc : String) : localeSep lc ≠ '-' := by
  unfold localeSep
  split <;> decide

/-- Claim C3: the table's `formatNumber` renders an absent value as the
placeholder `-` and every actual number, including 0, as a locale-formatted
numeral, so absence is always displayed distinctly from zero. -/
theorem formatNumber_absent_vs_number (locale : String) (v : Int) :
    formatNumber none locale = "-"
    ∧ formatNumber (some v) locale ≠ "-"
    ∧ formatNumber (some 0) locale = "0" := by
  refine ⟨rfl, ?_, rfl⟩
  show intToLocaleString v (if locale = "vi" then "vi-VN" else "en-US") ≠ "-"
  unfold intToLocaleString
  by_cases hv : v < 0
  · simp only [if_pos hv]
    intro heq
    have hd := congrArg String.data heq
    rw [String.data_append] at hd
    have hnil : (natGrouped v.natAbs
        (localeSep (if locale = "vi" then "vi-VN" else "en-US"))).data = [] := by
      simpa using hd
    exact natGrouped_ne_empty _ _ (string_data_ext hnil)
  · simp only [if_neg hv]
    exact natGrouped_ne_dash _ _ (localeSep_ne_dash _)

/-- Witness for claim C3 at concrete values. -/
theorem formatNumber_absent_vs_number_witness :
    formatNumber none "vi" = "-" ∧ formatNumber (some 0) "vi" = "0" :=
  ⟨(formatNumber_absent_vs_number "vi" 0).1, (formatNumber_absent_vs_number "vi" 0).2.2⟩

/-- Helper for claim C7: the period-descending row order is total. -/
theorem periodDesc_total (year : α → Int) (quarter : α → Option Int) (a b : α) :
    periodDesc year quarter a b ∨ periodDesc year quarter b a := by
  unfold periodDesc
  rcases le_total (qRank (quarter b)) (qRank (quarter a)) with h | h <;> omega

instance (year : α → Int) (quarter : α → Option Int) :
    IsTotal α (periodDesc year quarter) :=
  ⟨periodDesc_total year quarter⟩

/-- Helper for claim C7: the period-descending row order is transitive. -/
theorem periodDesc_trans (year : α → Int) (quarter : α → Option Int) (a b c : α)
    (hab : periodDesc year quarter a b) (hbc : periodDesc year quarter b c) :
    periodDesc year quarter a c := by
  unfold periodDesc at *
  omega

instance (year : α → Int) (quarter : α → Option Int) :
    IsTrans α (periodDesc year quarter) :=
  ⟨periodDesc_trans year quarter⟩

/-- Claim C7: the period rows of a reports read are ordered by year
descending, then quarter descending (null/annual quarter as a single bucket),
and the year list the UI derives via `updateAvailableYears` is strictly
descending. -/
theorem reports_sorted_desc (ptReq : PeriodType) (yearFilter : Option Int)
    (bs : List BalanceSheet) (incs : List IncomeStatement)
    (cfs : List CashFlowStatement) :
    List.Sorted (periodDesc BalanceSheet.year BalanceSheet.quarter)
      (assembleReports ptReq yearFilter bs incs cfs).balance_sheets
    ∧ List.Sorted (periodDesc IncomeStatement.year IncomeStatement.quarter)
      (assembleReports ptReq yearFilter bs incs cfs).income_statements
    ∧ List.Sorted (periodDesc CashFlowStatement.year CashFlowStatement.quarter)
      (assembleReports ptReq yearFilter bs incs cfs).cash_flow_statements
    ∧ List.Pairwise (fun a b : Int => b < a) (updateAvailableYears bs incs cfs) := by
  refine ⟨?_, ?_, ?_, ?_⟩
  · show List.Sorted _ (List.insertionSort _ _)
    exact List.sorted_insertionSort _ _
  · show List.Sorted _ (List.insertionSort _ _)
    exact List.sorted_insertionSort _ _
  · show List.Sorted _ (List.insertionSort _ _)
    exact List.sorted_insertionSort _ _
  · have hsorted : List.Sorted yearsDesc (updateAvailableYears bs incs cfs) := by
      show List.Sorted _ (List.insertionSort _ _)
      exact List.sorted_insertionSort _ _
    have hnodup : (updateAvailableYears bs incs cfs).Nodup := by
      unfold updateAvailableYears
      exact (List.perm_insertionSort _ _).nodup_iff.mpr (List.nodup_dedup _)
    exact (List.Pairwise.and hsorted hnodup).imp
      (fun hab => lt_of_le_of_ne hab.1 (Ne.symm hab.2))

/-- Helper for claim C1: the key-presence test agrees with key-list
membership. -/
theorem hasKey_iff (s : CatStore α) (k : PKey) : hasKey s k = true ↔ k ∈ keysOf s := by
  unfold hasKey keysOf
  rw [List.any_eq_true]
  constructor
  · rintro ⟨x, hx, hdec⟩
    rw [decide_eq_true_eq] at hdec
    exact hdec ▸ hx
  · intro h
    exact ⟨k, h, by simp⟩

/-- Helper for claim C1: upserting an already-present key overwrites in place
and leaves the key list unchanged. -/
theorem keysOf_upsertRow_of_mem (s : CatStore α) (k : PKey) (v : α)
    (h : k ∈ keysOf s) : keysOf (upsertRow s k v) = keysOf s := by
  unfold upsertRow
  rw [if_pos ((hasKey_iff s k).mpr h)]
  unfold keysOf
  rw [List.map_map]
  apply List.map_congr_left
  intro p _
  by_cases hp : p.1 = k
  · simp [Function.comp, hp]
  · simp [Function.comp, hp]

/-- Helper for claim C1: upserting a fresh key appends it to the key list. -/
theorem keysOf_upsertRow_of_not_mem (s : CatStore α) (k : PKey) (v : α)
    (h : k ∉ keysOf s) : keysOf (upsertRow s k v) = keysOf s ++ [k] := by
  unfold upsertRow
  rw [if_neg (fun hh => h ((hasKey_iff s k).mp hh))]
  unfold keysOf
  simp

/-- Helper for claim C1: the upserted key is present afterwards. -/
theorem mem_keysOf_upsertRow (s : CatStore α) (k : PKey) (v : α) :
    k ∈ keysOf (upsertRow s k v) := by
  by_cases h : k ∈ keysOf s
  · rw [keysOf_upsertRow_of_mem s k v h]
    exact h
  · rw [keysOf_upsertRow_of_not_mem s k v h]
    simp

/-- Helper for claim C1: an upsert never removes a key. -/
theorem mem_keysOf_upsertRow_of_mem (s : CatStore α) (k k2 : PKey) (v : α)
    (h : k2 ∈ keysOf s) : k2 ∈ keysOf (upsertRow s k v) := by
  by_cases hk : k ∈ keysOf s
  · rw [keysOf_upsertRow_of_mem s k v hk]
    exact h
  · rw [keysOf_upsertRow_of_not_mem s k v hk]
    exact List.mem_append_left _ h

/-- Helper for claim C1: an upsert preserves key uniqueness. -/
theorem nodup_keysOf_upsertRow (s : CatStore α) (k : PKey) (v : α)
    (h : (keysOf s).Nodup) : (keysOf (upsertRow s k v)).Nodup := by
  by_cases hk : k ∈ keysOf s
  · rw [keysOf_upsertRow_of_mem s k v hk]
    exact h
  · rw [keysOf_upsertRow_of_not_mem s k v hk]
    rw [List.nodup_append]
    exact ⟨h, List.nodup_singleton k, by simpa using hk⟩

/-- Helper for claim C1: a batch upsert never removes a key. -/
theorem mem_keysOf_upsertAll_of_mem (rows : List (PKey × α)) :
    ∀ (s : CatStore α) (k2 : PKey), k2 ∈ keysOf s → k2 ∈ keysOf (upsertAll s rows) := by
  induction rows with
  | nil =>
    intro s k2 h
    exact h
  | cons r rs ih =>
    intro s k2 h
    exact ih (upsertRow s r.1 r.2) k2 (mem_keysOf_upsertRow_of_mem _ _ _ _ h)

/-- Helper for claim C1: after a batch upsert, every upserted row's key is
present. -/
theorem rows_keys_mem_upsertAll (rows : List (PKey × α)) :
    ∀ (s : CatStore α), ∀ r ∈ rows, r.1 ∈ keysOf (upsertAll s rows) := by
  induction rows with
  | nil =>
    intro s r h
    simp at h
  | cons r0 rs ih =>
    intro s r h
    rcases List.mem_cons.mp h with h | h
    · subst h
      exact mem_keysOf_upsertAll_of_mem rs (upsertRow s r.1 r.2) r.1
        (mem_keysOf_upsertRow s r.1 r.2)
    · exact ih (upsertRow s r0.1 r0.2) r h

/-- Helper for claim C1: a batch upsert preserves key uniqueness, so a refetch
never creates duplicate rows. -/
theorem nodup_keysOf_upsertAll (rows : List (PKey × α)) :
    ∀ s : CatStore α, (keysOf s).Nodup → (keysOf (upsertAll s rows)).Nodup := by
  induction rows with
  | nil =>
    intro s h
    exact h
  | cons r rs ih =>
    intro s h
    exact ih _ (nodup_keysOf_upsertRow _ _ _ h)

/-- Helper for claim C1: when every upserted key is already present, a batch
upsert only overwrites and the key list is unchanged. -/
theorem keysOf_upsertAll_of_subset (rows : List (PKey × α)) :
    ∀ s : CatStore α, (∀ r ∈ rows, r.1 ∈ keysOf s) →
    keysOf (upsertAll s rows) = keysOf s := by
  induction rows with
  | nil =>
    intro s _
    rfl
  | cons r rs ih =>
    intro s h
    have h0 : r.1 ∈ keysOf s := h r (List.mem_cons_self r rs)
    have hkeys : keysOf (upsertRow s r.1 r.2) = keysOf s :=
      keysOf_upsertRow_of_mem s r.1 r.2 h0
    show keysOf (upsertAll (upsertRow s r.1 r.2) rs) = keysOf s
    rw [ih (upsertRow s r.1 r.2) (by
      intro r2 h2
      rw [hkeys]
      exact h r2 (List.mem_cons_of_mem _ h2)), hkeys]

/-- Helper for claim C1: stores with the same key list hold the same number of
rows. -/
theorem length_eq_of_keysOf_eq (s t : CatStore α) (h : keysOf s = keysOf t) :
    s.length = t.length := by
  have h2 := congrArg List.length h
  unfold keysOf at h2
  rwa [List.length_map, List.length_map] at h2

/-- Helper for claim C1: stock resolution leaves the three stores untouched. -/
theorem stockResolved_stores (db : DB α) (symbol : String) :
    (stockResolved db symbol).bs = db.bs
    ∧ (stockResolved db symbol).incs = db.incs
    ∧ (stockResolved db symbol).cfs = db.cfs := by
  unfold stockResolved
  split <;> exact ⟨rfl, rfl, rfl⟩

/-- Helper for claim C1: after stock resolution the symbol is known. -/
theorem mem_stocks_stockResolved (db : DB α) (symbol : String) :
    symbol ∈ (stockResolved db symbol).stocks := by
  unfold stockResolved
  split
  · assumption
  · simp

/-- Helper for claim C1: resolving an already-known symbol is the identity. -/
theorem stockResolved_of_mem (db : DB α) (symbol : String)
    (h : symbol ∈ db.stocks) : stockResolved db symbol = db := by
  unfold stockResolved
  rw [if_pos h]

/-- Claim C1: with unchanged provider data, calling `ensureData` twice in a
row yields identical persisted row counts after both calls and no duplicate
rows on the second call — the second call either returns `cached` without
touching the stores, or its upserts only overwrite keys already present. -/
theorem ensureData_idempotent {α : Type} (db : DB α) (symbol : String)
    (pt : PeriodType) (expected : List PKey) (provider : ProviderData α)
    (h : dbNodupKeys db) :
    dbCounts (ensureData (ensureData db symbol pt expected provider).1
        symbol pt expected provider).1
      = dbCounts (ensureData db symbol pt expected provider).1
    ∧ dbNodupKeys (ensureData (ensureData db symbol pt expected provider).1
        symbol pt expected provider).1 := by
  obtain ⟨h1, h2, h3⟩ := h
  obtain ⟨e1, e2, e3⟩ := stockResolved_stores db symbol
  have hr1 : (keysOf (stockResolved db symbol).bs).Nodup := by
    rw [e1]
    exact h1
  have hr2 : (keysOf (stockResolved db symbol).incs).Nodup := by
    rw [e2]
    exact h2
  have hr3 : (keysOf (stockResolved db symbol).cfs).Nodup := by
    rw [e3]
    exact h3
  by_cases m1 : (missingSet (stockResolved db symbol) pt expected).isEmpty
  · have E1 : ensureData db symbol pt expected provider
        = (stockResolved db symbol, FetchStatus.cached) := by
      unfold ensureData
      rw [if_pos m1]
    rw [E1]
    dsimp only
    have hsr : stockResolved (stockResolved db symbol) symbol = stockResolved db symbol :=
      stockResolved_of_mem _ _ (mem_stocks_stockResolved db symbol)
    have E2 : ensureData (stockResolved db symbol) symbol pt expected provider
        = (stockResolved db symbol, FetchStatus.cached) := by
      unfold ensureData
      rw [hsr, if_pos m1]
    rw [E2]
    exact ⟨rfl, hr1, hr2, hr3⟩
  · have E1 : ensureData db symbol pt expected provider
        = (⟨(stockResolved db symbol).stocks,
            upsertAll (stockResolved db symbol).bs provider.bsRows,
            upsertAll (stockResolved db symbol).incs provider.incRows,
            upsertAll (stockResolved db symbol).cfs provider.cfRows⟩,
          FetchStatus.fetched) := by
      unfold ensureData
      rw [if_neg m1]
    rw [E1]
    dsimp only
    set S : DB α := ⟨(stockResolved db symbol).stocks,
        upsertAll (stockResolved db symbol).bs provider.bsRows,
        upsertAll (stockResolved db symbol).incs provider.incRows,
        upsertAll (stockResolved db symbol).cfs provider.cfRows⟩ with hS
    have hns1 : (keysOf S.bs).Nodup := nodup_keysOf_upsertAll _ _ hr1
    have hns2 : (keysOf S.incs).Nodup := nodup_keysOf_upsertAll _ _ hr2
    have hns3 : (keysOf S.cfs).Nodup := nodup_keysOf_upsertAll _ _ hr3
    have hsrS : stockResolved S symbol = S := by
      apply stockResolved_of_mem
      exact mem_stocks_stockResolved db symbol
    by_cases m2 : (missingSet (stockResolved S symbol) pt expected).isEmpty
    · have E2 : ensureData S symbol pt expected provider
          = (stockResolved S symbol, FetchStatus.cached) := by
        unfold ensureData
        rw [if_pos m2]
      rw [E2, hsrS]
      exact ⟨rfl, hns1, hns2, hns3⟩
    · have E2 : ensureData S symbol pt expected provider
          = (⟨(stockResolved S symbol).stocks,
              upsertAll (stockResolved S symbol).bs provider.bsRows,
              upsertAll (stockResolved S symbol).incs provider.incRows,
              upsertAll (stockResolved S symbol).cfs provider.cfRows⟩,
            FetchStatus.fetched) := by
        unfold ensureData
        rw [if_neg m2]
      rw [E2, hsrS]
      dsimp only
      have hk1 : keysOf (upsertAll S.bs provider.bsRows) = keysOf S.bs := by
        apply keysOf_upsertAll_of_subset
        intro r hr
        exact rows_keys_mem_upsertAll provider.bsRows (stockResolved db symbol).bs r hr
      have hk2 : keysOf (upsertAll S.incs provider.incRows) = keysOf S.incs := by
        apply keysOf_upsertAll_of_subset
        intro r hr
        exact rows_keys_mem_upsertAll provider.incRows (stockResolved db symbol).incs r hr
      have hk3 : keysOf (upsertAll S.cfs provider.cfRows) = keysOf S.cfs := by
        apply keysOf_upsertAll_of_subset
        intro r hr
        exact rows_keys_mem_upsertAll provider.cfRows (stockResolved db symbol).cfs r hr
      constructor
      · simp only [dbCounts, Prod.mk.injEq]
        exact ⟨length_eq_of_keysOf_eq _ _ hk1,
          length_eq_of_keysOf_eq _ _ hk2, length_eq_of_keysOf_eq _ _ hk3⟩
      · exact ⟨nodup_keysOf_upsertAll _ _ hns1,
          nodup_keysOf_upsertAll _ _ hns2, nodup_keysOf_upsertAll _ _ hns3⟩

/-- Witness for claim C1 at a concrete store, window and provider response. -/
theorem ensureData_idempotent_witness :
    dbCounts (ensureData (ensureData dbSample "VNM" PeriodType.annual
        [kSample0, kSample1] provSample).1 "VNM" PeriodType.annual
        [kSample0, kSample1] provSample).1
      = dbCounts (ensureData dbSample "VNM" PeriodType.annual
        [kSample0, kSample1] provSample).1 :=
  (ensureData_idempotent dbSample "VNM" PeriodType.annual
    [kSample0, kSample1] provSample (by decide)).1
